import Mathlib

/-!
Access CA Certificate resource: the reconciliation handlers.

A shallow embedding of
`internal/sdkv2provider/resource_cloudflare_access_ca_certificate.go`:
the Create / Read / Update / Delete handlers and the Import handler of the
`cloudflare_access_ca_certificate` resource, followed by theorems about them.

Conventions of the embedding

* A Go `error` value is a `GoError`; `nil` is `none : Option GoError`, and a
  `(value, error)` result is an `Except GoError value`.
* `*schema.ResourceData` is mutated in place by the handlers; here every
  handler returns the record it leaves behind.
* `*cloudflare.API` is an arbitrary state machine: every method takes the
  state of the remote service and returns its result with the next state.
  Every handler also returns the list of client calls it issued, in order.
* `context.Context` is only handed on to the client, and `tflog` calls return
  nothing the handlers consume; neither is represented.
-/

namespace sdkv2provider

/-! ## Go errors -/

/-- A Go `error` value, as far as the handlers can observe one: its message,
whether it is a `*cloudflare.NotFoundError`, and the error it wraps. -/
inductive GoError where
  /-- the result of `errors.New(s)`, of `fmt.Errorf` without `%w`, or any other leaf error -/
  | errorString (s : String)
  /-- a `*cloudflare.NotFoundError` with message `s` -/
  | NotFoundError (s : String)
  /-- the result of `fmt.Errorf` with one `%w` verb: the formatted message and the wrapped error -/
  | wrapError (msg : String) (err : GoError)
deriving DecidableEq, Repr

/-- The method `Error()` of an error: its message. -/
def GoError.Error : GoError → String
  | .errorString s => s
  | .NotFoundError s => s
  | .wrapError msg _ => msg

/-- The function `errors.Unwrap`. -/
def GoError.Unwrap : GoError → Option GoError
  | .wrapError _ err => some err
  | _ => none

/-- The call `errors.As(err, &notFoundError)` with
`var notFoundError *cloudflare.NotFoundError`: whether some error of the
chain of `err` is a `*cloudflare.NotFoundError`. -/
def GoError.AsNotFoundError : GoError → Bool
  | .errorString _ => false
  | .NotFoundError _ => true
  | .wrapError _ err => err.AsNotFoundError

/-- The call `fmt.Errorf(format, ..., err)` whose format ends in `: %w`:
`text` is the formatted part before the wrapped error. -/
def Errorf_w (text : String) (err : GoError) : GoError :=
  .wrapError (text ++ err.Error) err

/-! ## Diagnostics -/

/-- The type `diag.Severity`. -/
inductive Severity where
  | Error
  | Warning
deriving DecidableEq, Repr

/-- The type `diag.Diagnostic` (the attribute path is never set here). -/
structure Diagnostic where
  Severity : Severity
  Summary : String
  Detail : String
deriving DecidableEq, Repr

/-- The type `diag.Diagnostics`; the `nil` the handlers return is `[]`. -/
abbrev Diagnostics := List Diagnostic

/-- The function `diag.FromErr` on a non-nil error. -/
def FromErr (err : GoError) : Diagnostics :=
  [{ Severity := .Error, Summary := err.Error, Detail := "" }]

/-! ## strings.SplitN -/

/-- One step of the loop of `genSplit` for a one-byte separator:
`m := Index(s, sep)`; `none` when `m < 0`, else `(s[:m], s[m+1:])`. -/
def Cut (sep : Char) : List Char → Option (List Char × List Char)
  | [] => none
  | c :: cs =>
    if c = sep then some ([], cs)
    else match Cut sep cs with
      | none => none
      | some (before, after) => some (c :: before, after)

/-- The loop of `strings.genSplit(s, sep, 0, n)` for a one-byte separator,
with `k = n - 1` separators still allowed:
`for i < n { m := Index(s, sep); if m < 0 { break }; a[i] = s[:m]; s = s[m+1:]; i++ }; a[i] = s`.
(The clamp `n = len(s) + 1` of `genSplit` only bounds the allocation: a
string has at most `len(s)` separators.) -/
def genSplit (sep : Char) : Nat → List Char → List (List Char)
  | 0, s => [s]
  | k + 1, s =>
    match Cut sep s with
    | none => [s]
    | some (before, after) => before :: genSplit sep k after

/-- The function `strings.SplitN(s, sep, n)` for `n ≥ 0` and a one-byte
separator: at most `n` substrings, the last one the unsplit remainder;
`n = 0` gives `nil`. -/
def SplitN (s : String) (sep : Char) (n : Nat) : List String :=
  if n = 0 then [] else (genSplit sep (n - 1) s.data).map String.mk

/-- The function `strings.Split(s, sep)`, that is `genSplit(s, sep, 0, -1)`,
where `n` becomes `Count(s, sep) + 1`: all the `sep`-separated segments. -/
def Split (s : String) (sep : Char) : List String :=
  (genSplit sep (s.data.count sep) s.data).map String.mk

/-! ## The record, the client and the package -/

/-- The `*schema.ResourceData` of this resource: its identifier (`d.Id()`)
and its attributes. -/
structure ResourceData where
  id : String
  account_id : String
  zone_id : String
  application_id : String
  aud : String
  public_key : String
deriving DecidableEq, Repr

/-- Modelled from the spec: `resourceCloudflareAccessCACertificateSchema` is
not among the sources. The attributes are those of the data model: the two
container-scope fields `account_id` and `zone_id`, `application_id`, `aud`
and `public_key`, all strings. `d.Get(key).(string)`. -/
def ResourceData.Get (d : ResourceData) (key : String) : String :=
  if key = "account_id" then d.account_id
  else if key = "zone_id" then d.zone_id
  else if key = "application_id" then d.application_id
  else if key = "aud" then d.aud
  else if key = "public_key" then d.public_key
  else ""

/-- The call `d.Set(key, value)` with a string value; for a key that is not
in the schema `Set` returns an error, which the handlers drop, and writes
nothing. -/
def ResourceData.Set (d : ResourceData) (key value : String) : ResourceData :=
  if key = "account_id" then { d with account_id := value }
  else if key = "zone_id" then { d with zone_id := value }
  else if key = "application_id" then { d with application_id := value }
  else if key = "aud" then { d with aud := value }
  else if key = "public_key" then { d with public_key := value }
  else d

/-- The call `d.SetId(v)`. -/
def ResourceData.SetId (d : ResourceData) (v : String) : ResourceData :=
  { d with id := v }

/-- The type `cloudflare.ResourceContainer`, with the two fields the handlers read. -/
structure ResourceContainer where
  Level : String
  Identifier : String
deriving DecidableEq, Repr

/-- The type `cloudflare.AccessCACertificate`. -/
structure AccessCACertificate where
  ID : String
  Aud : String
  PublicKey : String
deriving DecidableEq, Repr

/-- The type `cloudflare.CreateAccessCACertificateParams`. -/
structure CreateAccessCACertificateParams where
  ApplicationID : String
deriving DecidableEq, Repr

/-- The three methods of `*cloudflare.API` the handlers call, over the state
`σ` of the remote service. -/
structure API (σ : Type) where
  CreateAccessCACertificate :
    σ → ResourceContainer → CreateAccessCACertificateParams → Except GoError AccessCACertificate × σ
  GetAccessCACertificate :
    σ → ResourceContainer → String → Except GoError AccessCACertificate × σ
  DeleteAccessCACertificate :
    σ → ResourceContainer → String → Option GoError × σ

/-- A call issued to the client, with its arguments. -/
inductive Call where
  | Create (rc : ResourceContainer) (params : CreateAccessCACertificateParams)
  | Get (rc : ResourceContainer) (applicationID : String)
  | Delete (rc : ResourceContainer) (applicationID : String)
deriving DecidableEq, Repr

/-- What the handlers use from outside the source file and the client:
the package's container resolver `initResourceContainer(d)`, whose code is
not among the sources, and the `%q` verb of `fmt` on a string
(`strconv.Quote`). -/
structure Package where
  initResourceContainer : ResourceData → Except GoError ResourceContainer
  Quote : String → String

/-- Modelled from the spec: the constant `AccountType` is declared outside
the source file; the import key's first segment is matched against `"account"`. -/
def AccountType : String := "account"

/-- Modelled from the spec: the constant `ZoneType` is declared outside the
source file; the import key's first segment is matched against `"zone"`. -/
def ZoneType : String := "zone"

/-- What a lifecycle handler leaves behind: the diagnostics it returns, the
record, the state of the remote service, and the client calls it issued. -/
structure Outcome (σ : Type) where
  diags : Diagnostics
  d : ResourceData
  st : σ
  calls : List Call

/-- What the import handler leaves behind: the returned records and error,
the record it worked on, the state of the remote service, and the client
calls it issued. -/
structure ImportOutcome (σ : Type) where
  records : List ResourceData
  err : Option GoError
  d : ResourceData
  st : σ
  calls : List Call

/-! ## The handlers -/

/-- The handler `resourceCloudflareAccessCACertificateRead`. -/
def resourceCloudflareAccessCACertificateRead {σ : Type} (pkg : Package)
    (d : ResourceData) (client : API σ) (st : σ) : Outcome σ :=
  let applicationID := d.Get "application_id"
  match pkg.initResourceContainer d with
  | .error err => { diags := FromErr err, d := d, st := st, calls := [] }
  | .ok rc =>
    match client.GetAccessCACertificate st rc applicationID with
    | (.error err, st1) =>
      if err.AsNotFoundError then
        { diags := [], d := d.SetId "", st := st1, calls := [.Get rc applicationID] }
      else
        { diags := FromErr (Errorf_w ("error finding Access CA Certificate " ++ pkg.Quote d.id ++ ": ") err),
          d := d, st := st1, calls := [.Get rc applicationID] }
    | (.ok accessCACert, st1) =>
      { diags := [],
        d := ((d.SetId accessCACert.ID).Set "aud" accessCACert.Aud).Set "public_key" accessCACert.PublicKey,
        st := st1, calls := [.Get rc applicationID] }

/-- The handler `resourceCloudflareAccessCACertificateCreate`. -/
def resourceCloudflareAccessCACertificateCreate {σ : Type} (pkg : Package)
    (d : ResourceData) (client : API σ) (st : σ) : Outcome σ :=
  match pkg.initResourceContainer d with
  | .error err => { diags := FromErr err, d := d, st := st, calls := [] }
  | .ok rc =>
    let params : CreateAccessCACertificateParams := { ApplicationID := d.Get "application_id" }
    match client.CreateAccessCACertificate st rc params with
    | (.error err, st1) =>
      { diags := FromErr (Errorf_w
          ("error creating Access CA Certificate for " ++ rc.Level ++ " " ++ pkg.Quote rc.Identifier ++ ": ") err),
        d := d, st := st1, calls := [.Create rc params] }
    | (.ok accessCACert, st1) =>
      let r := resourceCloudflareAccessCACertificateRead pkg (d.SetId accessCACert.ID) client st1
      { r with calls := .Create rc params :: r.calls }

/-- The handler `resourceCloudflareAccessCACertificateUpdate`. -/
def resourceCloudflareAccessCACertificateUpdate {σ : Type} (_pkg : Package)
    (d : ResourceData) (_client : API σ) (st : σ) : Outcome σ :=
  { diags := [], d := d, st := st, calls := [] }

/-- The handler `resourceCloudflareAccessCACertificateDelete`. -/
def resourceCloudflareAccessCACertificateDelete {σ : Type} (pkg : Package)
    (d : ResourceData) (client : API σ) (st : σ) : Outcome σ :=
  let applicationID := d.Get "application_id"
  match pkg.initResourceContainer d with
  | .error err => { diags := FromErr err, d := d, st := st, calls := [] }
  | .ok rc =>
    match client.DeleteAccessCACertificate st rc applicationID with
    | (some err, st1) => { diags := FromErr err, d := d, st := st1, calls := [.Delete rc applicationID] }
    | (none, st1) => { diags := [], d := d.SetId "", st := st1, calls := [.Delete rc applicationID] }

/-- The error both checks of the import handler return:
`fmt.Errorf("invalid id (\"%s\") specified, should be in format ...", d.Id())`. -/
def invalidIdError (id : String) : GoError :=
  .errorString ("invalid id (\"" ++ id ++ "\") specified, should be in format \"account/accountID/applicationID/accessCACertificateID\" or \"zone/zoneID/applicationID/accessCACertificateID\"")

/-- The error of the import handler when the read fails:
`errors.New("failed to read Access CA Certificate state")`. -/
def readStateError : GoError :=
  .errorString "failed to read Access CA Certificate state"

/-- The handler `resourceCloudflareAccessCACertificateImport`; `d.Id()` is
the composite key. -/
def resourceCloudflareAccessCACertificateImport {σ : Type} (pkg : Package)
    (d : ResourceData) (client : API σ) (st : σ) : ImportOutcome σ :=
  match SplitN d.id '/' 4 with
  | [identifierType, identifierID, applicationID, accessCACertificateID] =>
    if identifierType ≠ AccountType ∧ identifierType ≠ ZoneType then
      { records := [], err := some (invalidIdError d.id), d := d, st := st, calls := [] }
    else
      let d1 := d.Set (identifierType ++ "_id") identifierID
      let d2 := d1.SetId accessCACertificateID
      let d3 := d2.Set "application_id" applicationID
      let r := resourceCloudflareAccessCACertificateRead pkg d3 client st
      if r.diags ≠ [] then
        { records := [], err := some readStateError, d := r.d, st := r.st, calls := r.calls }
      else
        { records := [r.d], err := none, d := r.d, st := r.st, calls := r.calls }
  | _ => { records := [], err := some (invalidIdError d.id), d := d, st := st, calls := [] }

/-! ## Fakes used at the concrete inputs -/

/-- A container resolver for the concrete inputs: the account scope when
`account_id` is set, else the zone scope when `zone_id` is set, else an error. -/
def fakeResolver (d : ResourceData) : Except GoError ResourceContainer :=
  if d.account_id ≠ "" then .ok { Level := "accounts", Identifier := d.account_id }
  else if d.zone_id ≠ "" then .ok { Level := "zones", Identifier := d.zone_id }
  else .error (.errorString "error finding account_id or zone_id")

/-- A package for the concrete inputs: `fakeResolver`, and the `%q` verb as
it renders a string of plain letters and digits. -/
def fakePackage : Package :=
  { initResourceContainer := fakeResolver
    Quote := fun s => "\"" ++ s ++ "\"" }

/-- A fake client with fixed answers; its state counts the calls it received. -/
def fakeAPI (create get : Except GoError AccessCACertificate) (delete : Option GoError) : API Nat :=
  { CreateAccessCACertificate := fun st _ _ => (create, st + 1)
    GetAccessCACertificate := fun st _ _ => (get, st + 1)
    DeleteAccessCACertificate := fun st _ _ => (delete, st + 1) }

/-- A record with every field empty. -/
def emptyRecord : ResourceData :=
  { id := "", account_id := "", zone_id := "", application_id := "", aud := "", public_key := "" }

/-! ## Splitting -/

theorem Cut_eq_none_iff (sep : Char) (s : List Char) : Cut sep s = none ↔ sep ∉ s := by
  induction s with
  | nil => simp [Cut]
  | cons c cs ih =>
    by_cases h : c = sep
    · simp [Cut, h]
    · have h2 : ¬ sep = c := fun e => h e.symm
      cases hc : Cut sep cs with
      | none => simp [Cut, h, h2, hc, ← ih]
      | some p =>
        have : sep ∈ cs := by
          by_contra hn
          rw [← ih, hc] at hn
          exact absurd hn (by simp)
        simp [Cut, h, hc, this]

theorem Cut_eq_some (sep : Char) (s before after : List Char)
    (h : Cut sep s = some (before, after)) :
    s = before ++ sep :: after ∧ sep ∉ before := by
  induction s generalizing before with
  | nil => simp [Cut] at h
  | cons c cs ih =>
    by_cases hc : c = sep
    · simp [Cut, hc] at h
      obtain ⟨rfl, rfl⟩ := h
      simp [hc]
    · cases hcut : Cut sep cs with
      | none => simp [Cut, hc, hcut] at h
      | some p =>
        obtain ⟨b, a⟩ := p
        simp [Cut, hc, hcut] at h
        obtain ⟨rfl, rfl⟩ := h
        obtain ⟨h1, h2⟩ := ih b hcut
        refine ⟨by rw [h1]; simp, ?_⟩
        simp only [List.mem_cons, not_or]
        exact ⟨fun e => hc e.symm, h2⟩

theorem Cut_append (sep : Char) (before after : List Char) (h : sep ∉ before) :
    Cut sep (before ++ sep :: after) = some (before, after) := by
  induction before with
  | nil => simp [Cut]
  | cons c cs ih =>
    simp only [List.mem_cons, not_or] at h
    have hc : ¬ c = sep := fun e => h.1 e.symm
    simp [Cut, hc, ih h.2]

theorem length_genSplit (sep : Char) (k : Nat) (s : List Char) :
    (genSplit sep k s).length = min k (s.count sep) + 1 := by
  induction k generalizing s with
  | zero => simp [genSplit]
  | succ k ih =>
    cases hcut : Cut sep s with
    | none =>
      have : s.count sep = 0 := List.count_eq_zero.mpr ((Cut_eq_none_iff sep s).mp hcut)
      simp [genSplit, hcut, this]
    | some p =>
      obtain ⟨b, a⟩ := p
      obtain ⟨h1, h2⟩ := Cut_eq_some sep s b a hcut
      have hb : b.count sep = 0 := List.count_eq_zero.mpr h2
      have : s.count sep = a.count sep + 1 := by
        rw [h1, List.count_append, hb, List.count_cons_self]; omega
      simp only [genSplit, hcut, List.length_cons, ih, this]
      omega

/-- The number of segments of a string: one more than its separators. -/
theorem length_Split (s : String) (sep : Char) :
    (Split s sep).length = s.data.count sep + 1 := by
  simp [Split, length_genSplit]

/-- With a limit of `n > 0`, `SplitN` returns `n` pieces or all the segments,
whichever is fewer. -/
theorem length_SplitN (s : String) (sep : Char) (n : Nat) (hn : 0 < n) :
    (SplitN s sep n).length = min n (Split s sep).length := by
  have h0 : n ≠ 0 := by omega
  simp only [SplitN, h0, if_false, List.length_map, length_genSplit, length_Split]
  omega

/-- The count check of the import handler passes exactly for the keys of at
least four segments. -/
theorem length_SplitN_four_iff (s : String) :
    (SplitN s '/' 4).length = 4 ↔ 4 ≤ (Split s '/').length := by
  rw [length_SplitN s '/' 4 (by decide)]
  omega

/-- A string of the form `a/b/c/e`, with no separator in `a`, `b` and `c`,
is cut by `SplitN` with limit 4 into `a`, `b`, `c` and `e`. -/
theorem SplitN_four_of_form (a b c e : String)
    (ha : '/' ∉ a.data) (hb : '/' ∉ b.data) (hc : '/' ∉ c.data) :
    SplitN (a ++ "/" ++ b ++ "/" ++ c ++ "/" ++ e) '/' 4 = [a, b, c, e] := by
  have hdata : (a ++ "/" ++ b ++ "/" ++ c ++ "/" ++ e).data
      = a.data ++ '/' :: (b.data ++ '/' :: (c.data ++ '/' :: e.data)) := by
    simp [String.data_append]
  simp [SplitN, hdata, genSplit, Cut_append, ha, hb, hc]

/-! ## The import handler, by the shape of the split key -/

set_option maxRecDepth 8000

theorem Import_of_length_ne_four {σ : Type} (pkg : Package) (d : ResourceData)
    (client : API σ) (st : σ) (h : (SplitN d.id '/' 4).length ≠ 4) :
    resourceCloudflareAccessCACertificateImport pkg d client st
      = { records := [], err := some (invalidIdError d.id), d := d, st := st, calls := [] } := by
  unfold resourceCloudflareAccessCACertificateImport
  split
  · next heq => rw [heq] at h; exact absurd rfl h
  · rfl

theorem Import_of_split {σ : Type} (pkg : Package) (d : ResourceData)
    (client : API σ) (st : σ) (identifierType identifierID applicationID accessCACertificateID : String)
    (h : SplitN d.id '/' 4 = [identifierType, identifierID, applicationID, accessCACertificateID]) :
    resourceCloudflareAccessCACertificateImport pkg d client st
      = if identifierType ≠ AccountType ∧ identifierType ≠ ZoneType then
          { records := [], err := some (invalidIdError d.id), d := d, st := st, calls := [] }
        else
          let r := resourceCloudflareAccessCACertificateRead pkg
            (((d.Set (identifierType ++ "_id") identifierID).SetId accessCACertificateID).Set
              "application_id" applicationID) client st
          if r.diags ≠ [] then
            { records := [], err := some readStateError, d := r.d, st := r.st, calls := r.calls }
          else
            { records := [r.d], err := none, d := r.d, st := r.st, calls := r.calls } := by
  unfold resourceCloudflareAccessCACertificateImport
  rw [h]

/-! ## Import: malformed keys -/

/-- C1 (amended): for every composite key with fewer than four
`/`-separated segments, such as `zone/zone1/app1`, Import fails with the
format error, sets no field of the record and issues no client call. -/
theorem Import_fewer_than_four_segments {σ : Type} (pkg : Package) (d : ResourceData)
    (client : API σ) (st : σ) (h : (Split d.id '/').length < 4) :
    resourceCloudflareAccessCACertificateImport pkg d client st
      = { records := [], err := some (invalidIdError d.id), d := d, st := st, calls := [] } := by
  apply Import_of_length_ne_four
  rw [Ne, length_SplitN_four_iff]
  omega

/-- C1, at the key `zone/zone1/app1` of three segments. -/
theorem Import_fewer_than_four_segments_witness :
    (Split (emptyRecord.SetId "zone/zone1/app1").id '/').length < 4
    ∧ resourceCloudflareAccessCACertificateImport fakePackage (emptyRecord.SetId "zone/zone1/app1")
        (fakeAPI (.error (.errorString "unused")) (.error (.errorString "unused")) none) 0
      = { records := [], err := some (invalidIdError "zone/zone1/app1"),
          d := emptyRecord.SetId "zone/zone1/app1", st := 0, calls := [] } :=
  ⟨by decide, Import_fewer_than_four_segments _ _ _ _ (by decide)⟩

/-- C1 as stated fails: the key `account/a/b/c/d` has five segments, yet
Import does not return the format error: `SplitN` with limit 4 leaves `c/d`
in the fourth piece, the lookup is issued and one record is returned. -/
theorem Import_five_segments_accepted :
    (Split "account/a/b/c/d" '/').length = 5
    ∧ SplitN "account/a/b/c/d" '/' 4 = ["account", "a", "b", "c/d"]
    ∧ (resourceCloudflareAccessCACertificateImport fakePackage (emptyRecord.SetId "account/a/b/c/d")
        (fakeAPI (.error (.errorString "unused")) (.ok { ID := "c/d", Aud := "aud1", PublicKey := "pk1" }) none)
        0).err = none
    ∧ (resourceCloudflareAccessCACertificateImport fakePackage (emptyRecord.SetId "account/a/b/c/d")
        (fakeAPI (.error (.errorString "unused")) (.ok { ID := "c/d", Aud := "aud1", PublicKey := "pk1" }) none)
        0).records
      = [{ id := "c/d", account_id := "a", zone_id := "", application_id := "b",
           aud := "aud1", public_key := "pk1" }]
    ∧ (resourceCloudflareAccessCACertificateImport fakePackage (emptyRecord.SetId "account/a/b/c/d")
        (fakeAPI (.error (.errorString "unused")) (.ok { ID := "c/d", Aud := "aud1", PublicKey := "pk1" }) none)
        0).calls
      = [.Get { Level := "accounts", Identifier := "a" } "b"] := by
  refine ⟨by decide, by decide, by decide, by decide, by decide⟩

/-- C2: for every composite key that splits into four segments whose first
segment is neither `account` nor `zone` (compared case-sensitively), Import
returns the error of the segment-count check, formatted with the full key,
and does so with the record untouched and no client call issued. -/
theorem Import_invalid_scope_kind {σ : Type} (pkg : Package) (d : ResourceData)
    (client : API σ) (st : σ) (identifierType identifierID applicationID accessCACertificateID : String)
    (hsplit : SplitN d.id '/' 4 = [identifierType, identifierID, applicationID, accessCACertificateID])
    (haccount : identifierType ≠ "account") (hzone : identifierType ≠ "zone") :
    resourceCloudflareAccessCACertificateImport pkg d client st
      = { records := [], err := some (invalidIdError d.id), d := d, st := st, calls := [] } := by
  rw [Import_of_split pkg d client st _ _ _ _ hsplit]
  have h : identifierType ≠ AccountType ∧ identifierType ≠ ZoneType := ⟨haccount, hzone⟩
  rw [if_pos h]

/-- C2, at the keys `foo/x/y/z` and `Account/x/y/z`. -/
theorem Import_invalid_scope_kind_witness :
    resourceCloudflareAccessCACertificateImport fakePackage (emptyRecord.SetId "foo/x/y/z")
        (fakeAPI (.error (.errorString "unused")) (.error (.errorString "unused")) none) 0
      = { records := [], err := some (invalidIdError "foo/x/y/z"),
          d := emptyRecord.SetId "foo/x/y/z", st := 0, calls := [] }
    ∧ resourceCloudflareAccessCACertificateImport fakePackage (emptyRecord.SetId "Account/x/y/z")
        (fakeAPI (.error (.errorString "unused")) (.error (.errorString "unused")) none) 0
      = { records := [], err := some (invalidIdError "Account/x/y/z"),
          d := emptyRecord.SetId "Account/x/y/z", st := 0, calls := [] } :=
  ⟨Import_invalid_scope_kind _ _ _ _ "foo" "x" "y" "z" (by decide) (by decide) (by decide),
   Import_invalid_scope_kind _ _ _ _ "Account" "x" "y" "z" (by decide) (by decide) (by decide)⟩

/-! ## Read -/

/-- Read when the scope resolves and the lookup succeeds. -/
theorem Read_of_found {σ : Type} (pkg : Package) (d : ResourceData) (client : API σ) (st : σ)
    (rc : ResourceContainer) (found : AccessCACertificate) (st1 : σ) (applicationID : String)
    (happ : d.Get "application_id" = applicationID)
    (hrc : pkg.initResourceContainer d = .ok rc)
    (hget : client.GetAccessCACertificate st rc applicationID = (.ok found, st1)) :
    resourceCloudflareAccessCACertificateRead pkg d client st
      = { diags := [],
          d := { d with id := found.ID, aud := found.Aud, public_key := found.PublicKey },
          st := st1, calls := [.Get rc applicationID] } := by
  unfold resourceCloudflareAccessCACertificateRead
  simp only [hrc, happ, hget]
  rfl

/-- C4: for every record whose container scope resolves, when the lookup
fails with an error that is a not-found error, Read returns no diagnostics,
sets `id` to the empty string and leaves `aud`, `public_key`,
`application_id` and the scope fields as they were. -/
theorem Read_not_found {σ : Type} (pkg : Package) (d : ResourceData) (client : API σ) (st : σ)
    (rc : ResourceContainer) (err : GoError) (st1 : σ)
    (hrc : pkg.initResourceContainer d = .ok rc)
    (hget : client.GetAccessCACertificate st rc (d.Get "application_id") = (.error err, st1))
    (hnotfound : err.AsNotFoundError = true) :
    (resourceCloudflareAccessCACertificateRead pkg d client st).diags = []
    ∧ (resourceCloudflareAccessCACertificateRead pkg d client st).d.id = ""
    ∧ (resourceCloudflareAccessCACertificateRead pkg d client st).d.aud = d.aud
    ∧ (resourceCloudflareAccessCACertificateRead pkg d client st).d.public_key = d.public_key
    ∧ (resourceCloudflareAccessCACertificateRead pkg d client st).d.application_id = d.application_id
    ∧ (resourceCloudflareAccessCACertificateRead pkg d client st).d.account_id = d.account_id
    ∧ (resourceCloudflareAccessCACertificateRead pkg d client st).d.zone_id = d.zone_id := by
  simp [resourceCloudflareAccessCACertificateRead, hrc, hget, hnotfound, ResourceData.SetId]

/-- C4, at a record of the account `acc1` whose lookup answers with a
not-found error wrapped once. -/
theorem Read_not_found_witness :
    (resourceCloudflareAccessCACertificateRead fakePackage
        { id := "cert1", account_id := "acc1", zone_id := "", application_id := "app1",
          aud := "aud0", public_key := "pk0" }
        (fakeAPI (.error (.errorString "unused"))
          (.error (.wrapError "lookup: gone" (.NotFoundError "gone"))) none) 0).diags = []
    ∧ (resourceCloudflareAccessCACertificateRead fakePackage
        { id := "cert1", account_id := "acc1", zone_id := "", application_id := "app1",
          aud := "aud0", public_key := "pk0" }
        (fakeAPI (.error (.errorString "unused"))
          (.error (.wrapError "lookup: gone" (.NotFoundError "gone"))) none) 0).d
      = { id := "", account_id := "acc1", zone_id := "", application_id := "app1",
          aud := "aud0", public_key := "pk0" } := by
  have h := Read_not_found fakePackage
    { id := "cert1", account_id := "acc1", zone_id := "", application_id := "app1",
      aud := "aud0", public_key := "pk0" }
    (fakeAPI (.error (.errorString "unused"))
      (.error (.wrapError "lookup: gone" (.NotFoundError "gone"))) none) 0
    { Level := "accounts", Identifier := "acc1" }
    (.wrapError "lookup: gone" (.NotFoundError "gone")) 1 rfl rfl rfl
  exact ⟨h.1, by decide⟩

/-- C5: for every record whose container scope resolves and every lookup
error that is not a not-found error, Read returns one error diagnostic whose
summary is `error finding Access CA Certificate <id rendered by %q>: <cause>`,
made from an error that wraps the lookup error, and leaves the whole record
(`id`, `aud`, `public_key` and the rest) unchanged. -/
theorem Read_lookup_failure {σ : Type} (pkg : Package) (d : ResourceData) (client : API σ) (st : σ)
    (rc : ResourceContainer) (err : GoError) (st1 : σ)
    (hrc : pkg.initResourceContainer d = .ok rc)
    (hget : client.GetAccessCACertificate st rc (d.Get "application_id") = (.error err, st1))
    (hother : err.AsNotFoundError = false) :
    (∃ wrapped : GoError,
        (resourceCloudflareAccessCACertificateRead pkg d client st).diags = FromErr wrapped
        ∧ wrapped.Unwrap = some err
        ∧ wrapped.Error = "error finding Access CA Certificate " ++ pkg.Quote d.id ++ ": " ++ err.Error)
    ∧ (resourceCloudflareAccessCACertificateRead pkg d client st).diags
        = [{ Severity := .Error,
             Summary := "error finding Access CA Certificate " ++ pkg.Quote d.id ++ ": " ++ err.Error,
             Detail := "" }]
    ∧ (resourceCloudflareAccessCACertificateRead pkg d client st).d = d := by
  refine ⟨⟨Errorf_w ("error finding Access CA Certificate " ++ pkg.Quote d.id ++ ": ") err, ?_, rfl, rfl⟩,
    ?_, ?_⟩
  all_goals
    simp [resourceCloudflareAccessCACertificateRead, hrc, hget, hother, FromErr, Errorf_w, GoError.Error]

/-- C5, at a record of the zone `zone1` whose lookup fails with `boom`. -/
theorem Read_lookup_failure_witness :
    (resourceCloudflareAccessCACertificateRead fakePackage
        { id := "cert1", account_id := "", zone_id := "zone1", application_id := "app1",
          aud := "aud0", public_key := "pk0" }
        (fakeAPI (.error (.errorString "unused")) (.error (.errorString "boom")) none) 0).diags
      = [{ Severity := .Error,
           Summary := "error finding Access CA Certificate \"cert1\": boom",
           Detail := "" }]
    ∧ (resourceCloudflareAccessCACertificateRead fakePackage
        { id := "cert1", account_id := "", zone_id := "zone1", application_id := "app1",
          aud := "aud0", public_key := "pk0" }
        (fakeAPI (.error (.errorString "unused")) (.error (.errorString "boom")) none) 0).d
      = { id := "cert1", account_id := "", zone_id := "zone1", application_id := "app1",
          aud := "aud0", public_key := "pk0" } := by
  have h := Read_lookup_failure fakePackage
    { id := "cert1", account_id := "", zone_id := "zone1", application_id := "app1",
      aud := "aud0", public_key := "pk0" }
    (fakeAPI (.error (.errorString "unused")) (.error (.errorString "boom")) none) 0
    { Level := "zones", Identifier := "zone1" } (.errorString "boom") 1 rfl rfl rfl
  exact ⟨h.2.1.trans (by decide), h.2.2⟩

/-! ## Update -/

/-- C9: for every record and every client, Update returns no diagnostics,
issues no client call (the state of the remote service is the one it was
given) and leaves every field of the record unchanged. -/
theorem Update_is_noop {σ : Type} (pkg : Package) (d : ResourceData) (client : API σ) (st : σ) :
    resourceCloudflareAccessCACertificateUpdate pkg d client st
      = { diags := [], d := d, st := st, calls := [] } := by
  rfl

/-! ## Delete -/

/-- C7: Delete clears `id` exactly when the deletion call succeeds. When the
scope resolves and the call succeeds, no diagnostics are returned and only
`id` changes, to the empty string; when the call fails, the one diagnostic
has the message of the client's error as it is and the record is unchanged;
when the scope does not resolve, no call is issued and the record is
unchanged. So Delete returns no diagnostics exactly when the deletion call
was issued and succeeded. -/
theorem Delete_clears_id_iff_deleted {σ : Type} (pkg : Package) (d : ResourceData)
    (client : API σ) (st : σ) :
    (∀ rc st1, pkg.initResourceContainer d = .ok rc →
        client.DeleteAccessCACertificate st rc (d.Get "application_id") = (none, st1) →
        resourceCloudflareAccessCACertificateDelete pkg d client st
          = { diags := [], d := { d with id := "" }, st := st1,
              calls := [.Delete rc (d.Get "application_id")] })
    ∧ (∀ rc err st1, pkg.initResourceContainer d = .ok rc →
        client.DeleteAccessCACertificate st rc (d.Get "application_id") = (some err, st1) →
        resourceCloudflareAccessCACertificateDelete pkg d client st
          = { diags := [{ Severity := .Error, Summary := err.Error, Detail := "" }], d := d, st := st1,
              calls := [.Delete rc (d.Get "application_id")] })
    ∧ (∀ err, pkg.initResourceContainer d = .error err →
        resourceCloudflareAccessCACertificateDelete pkg d client st
          = { diags := [{ Severity := .Error, Summary := err.Error, Detail := "" }], d := d, st := st,
              calls := [] })
    ∧ ((resourceCloudflareAccessCACertificateDelete pkg d client st).diags = [] ↔
        ∃ rc, pkg.initResourceContainer d = .ok rc
          ∧ (client.DeleteAccessCACertificate st rc (d.Get "application_id")).1 = none) := by
  refine ⟨?_, ?_, ?_, ?_⟩
  · intro rc st1 hrc hdel
    simp [resourceCloudflareAccessCACertificateDelete, hrc, hdel, ResourceData.SetId]
  · intro rc err st1 hrc hdel
    simp [resourceCloudflareAccessCACertificateDelete, hrc, hdel, FromErr]
  · intro err hrc
    simp [resourceCloudflareAccessCACertificateDelete, hrc, FromErr]
  · cases hrc : pkg.initResourceContainer d with
    | error e => simp [resourceCloudflareAccessCACertificateDelete, hrc, FromErr]
    | ok rc =>
      cases hdel : client.DeleteAccessCACertificate st rc (d.Get "application_id") with
      | mk res st1 =>
        cases res with
        | none => simp [resourceCloudflareAccessCACertificateDelete, hrc, hdel]
        | some e => simp [resourceCloudflareAccessCACertificateDelete, hrc, hdel, FromErr]

/-- C7, at a record of the account `acc1`: once with a client whose deletion
succeeds, once with a client whose deletion fails with `busy`, once with no
scope set. -/
theorem Delete_clears_id_iff_deleted_witness :
    resourceCloudflareAccessCACertificateDelete fakePackage
        { id := "cert1", account_id := "acc1", zone_id := "", application_id := "app1",
          aud := "aud0", public_key := "pk0" }
        (fakeAPI (.error (.errorString "unused")) (.error (.errorString "unused")) none) 0
      = { diags := [],
          d := { id := "", account_id := "acc1", zone_id := "", application_id := "app1",
                 aud := "aud0", public_key := "pk0" },
          st := 1, calls := [.Delete { Level := "accounts", Identifier := "acc1" } "app1"] }
    ∧ resourceCloudflareAccessCACertificateDelete fakePackage
        { id := "cert1", account_id := "acc1", zone_id := "", application_id := "app1",
          aud := "aud0", public_key := "pk0" }
        (fakeAPI (.error (.errorString "unused")) (.error (.errorString "unused"))
          (some (.errorString "busy"))) 0
      = { diags := [{ Severity := .Error, Summary := "busy", Detail := "" }],
          d := { id := "cert1", account_id := "acc1", zone_id := "", application_id := "app1",
                 aud := "aud0", public_key := "pk0" },
          st := 1, calls := [.Delete { Level := "accounts", Identifier := "acc1" } "app1"] }
    ∧ resourceCloudflareAccessCACertificateDelete fakePackage
        { id := "cert1", account_id := "", zone_id := "", application_id := "app1",
          aud := "aud0", public_key := "pk0" }
        (fakeAPI (.error (.errorString "unused")) (.error (.errorString "unused")) none) 0
      = { diags := [{ Severity := .Error, Summary := "error finding account_id or zone_id", Detail := "" }],
          d := { id := "cert1", account_id := "", zone_id := "", application_id := "app1",
                 aud := "aud0", public_key := "pk0" },
          st := 0, calls := [] } :=
  ⟨(Delete_clears_id_iff_deleted fakePackage _ _ 0).1
      { Level := "accounts", Identifier := "acc1" } 1 rfl rfl,
   (Delete_clears_id_iff_deleted fakePackage _ _ 0).2.1
      { Level := "accounts", Identifier := "acc1" } (.errorString "busy") 1 rfl rfl,
   (Delete_clears_id_iff_deleted fakePackage _ _ 0).2.2.1
      (.errorString "error finding account_id or zone_id") rfl⟩

/-! ## Create -/

/-- C8: for every record whose container scope resolves, when the creation
call fails with cause `c`, Create returns one error diagnostic whose summary
is `error creating Access CA Certificate for <rc.Level> <rc.Identifier
rendered by %q>: <c>`, leaves the record (so also `id`) unchanged and issues
no lookup: the creation call is the only client call. When the scope does not
resolve, Create returns the resolver's error and issues no client call. -/
theorem Create_failure {σ : Type} (pkg : Package) (d : ResourceData) (client : API σ) (st : σ) :
    (∀ rc c st1, pkg.initResourceContainer d = .ok rc →
        client.CreateAccessCACertificate st rc { ApplicationID := d.Get "application_id" }
          = (.error c, st1) →
        resourceCloudflareAccessCACertificateCreate pkg d client st
          = { diags := [{ Severity := .Error,
                          Summary := "error creating Access CA Certificate for " ++ rc.Level ++ " "
                            ++ pkg.Quote rc.Identifier ++ ": " ++ c.Error,
                          Detail := "" }],
              d := d, st := st1,
              calls := [.Create rc { ApplicationID := d.Get "application_id" }] })
    ∧ (∀ err, pkg.initResourceContainer d = .error err →
        resourceCloudflareAccessCACertificateCreate pkg d client st
          = { diags := [{ Severity := .Error, Summary := err.Error, Detail := "" }], d := d, st := st,
              calls := [] }) := by
  refine ⟨?_, ?_⟩
  · intro rc c st1 hrc hcreate
    simp [resourceCloudflareAccessCACertificateCreate, hrc, hcreate, FromErr, Errorf_w, GoError.Error]
  · intro err hrc
    simp [resourceCloudflareAccessCACertificateCreate, hrc, FromErr]

/-- C8, at a record of the account `acc1` with a client whose creation fails
with `quota exceeded`, and at a record with no scope set. -/
theorem Create_failure_witness :
    resourceCloudflareAccessCACertificateCreate fakePackage
        { id := "", account_id := "acc1", zone_id := "", application_id := "app1",
          aud := "", public_key := "" }
        (fakeAPI (.error (.errorString "quota exceeded"))
          (.ok { ID := "abc123", Aud := "aud1", PublicKey := "pk1" }) none) 0
      = { diags := [{ Severity := .Error,
                      Summary := "error creating Access CA Certificate for accounts \"acc1\": quota exceeded",
                      Detail := "" }],
          d := { id := "", account_id := "acc1", zone_id := "", application_id := "app1",
                 aud := "", public_key := "" },
          st := 1,
          calls := [.Create { Level := "accounts", Identifier := "acc1" } { ApplicationID := "app1" }] }
    ∧ resourceCloudflareAccessCACertificateCreate fakePackage
        { id := "", account_id := "", zone_id := "", application_id := "app1",
          aud := "", public_key := "" }
        (fakeAPI (.ok { ID := "abc123", Aud := "aud1", PublicKey := "pk1" })
          (.ok { ID := "abc123", Aud := "aud1", PublicKey := "pk1" }) none) 0
      = { diags := [{ Severity := .Error, Summary := "error finding account_id or zone_id", Detail := "" }],
          d := { id := "", account_id := "", zone_id := "", application_id := "app1",
                 aud := "", public_key := "" },
          st := 0, calls := [] } :=
  ⟨(Create_failure fakePackage _ _ 0).1
      { Level := "accounts", Identifier := "acc1" } (.errorString "quota exceeded") 1 rfl rfl,
   (Create_failure fakePackage _ _ 0).2 (.errorString "error finding account_id or zone_id") rfl⟩

/-- C6 (amended): for every desired record whose scope resolves and every
client whose creation call succeeds returning the identifier `e`, Create
adopts `e` as `id` and runs Read, and what the record holds afterwards is
decided by the chained Read.
When the chained lookup succeeds, Create returns no diagnostics and `id`,
`aud` and `public_key` are the `ID`, `Aud` and `PublicKey` the lookup
reported, so `id` equals `e` exactly when the lookup reports the identifier
`e`.
When the chained lookup fails with an error that is not a not-found error,
Create returns that failure (`error finding Access CA Certificate <e rendered
by %q>: <cause>`) and the record keeps `id` equal to `e`, with `aud`,
`public_key` and every other field as they were.
When the chained lookup reports not-found, Create returns no diagnostics and
`id` is empty, the other fields as they were.
When the scope does not resolve for the chained Read, Create returns the
resolver's error, no lookup is issued and the record keeps `id` equal to `e`. -/
theorem Create_then_Read {σ : Type} (pkg : Package) (d : ResourceData) (client : API σ) (st : σ)
    (rc : ResourceContainer) (created : AccessCACertificate) (st1 : σ)
    (hrc : pkg.initResourceContainer d = .ok rc)
    (hcreate : client.CreateAccessCACertificate st rc { ApplicationID := d.Get "application_id" }
      = (.ok created, st1)) :
    (∀ rc1 found st2, pkg.initResourceContainer (d.SetId created.ID) = .ok rc1 →
        client.GetAccessCACertificate st1 rc1 (d.Get "application_id") = (.ok found, st2) →
        resourceCloudflareAccessCACertificateCreate pkg d client st
          = { diags := [],
              d := { d with id := found.ID, aud := found.Aud, public_key := found.PublicKey },
              st := st2,
              calls := [.Create rc { ApplicationID := d.Get "application_id" },
                        .Get rc1 (d.Get "application_id")] }
        ∧ ((resourceCloudflareAccessCACertificateCreate pkg d client st).d.id = created.ID
            ↔ found.ID = created.ID))
    ∧ (∀ rc1 err st2, pkg.initResourceContainer (d.SetId created.ID) = .ok rc1 →
        client.GetAccessCACertificate st1 rc1 (d.Get "application_id") = (.error err, st2) →
        err.AsNotFoundError = false →
        resourceCloudflareAccessCACertificateCreate pkg d client st
          = { diags := [{ Severity := .Error,
                          Summary := "error finding Access CA Certificate " ++ pkg.Quote created.ID
                            ++ ": " ++ err.Error,
                          Detail := "" }],
              d := { d with id := created.ID },
              st := st2,
              calls := [.Create rc { ApplicationID := d.Get "application_id" },
                        .Get rc1 (d.Get "application_id")] })
    ∧ (∀ rc1 err st2, pkg.initResourceContainer (d.SetId created.ID) = .ok rc1 →
        client.GetAccessCACertificate st1 rc1 (d.Get "application_id") = (.error err, st2) →
        err.AsNotFoundError = true →
        resourceCloudflareAccessCACertificateCreate pkg d client st
          = { diags := [],
              d := { d with id := "" },
              st := st2,
              calls := [.Create rc { ApplicationID := d.Get "application_id" },
                        .Get rc1 (d.Get "application_id")] })
    ∧ (∀ err, pkg.initResourceContainer (d.SetId created.ID) = .error err →
        resourceCloudflareAccessCACertificateCreate pkg d client st
          = { diags := [{ Severity := .Error, Summary := err.Error, Detail := "" }],
              d := { d with id := created.ID },
              st := st1,
              calls := [.Create rc { ApplicationID := d.Get "application_id" }] }) := by
  have happ : (d.SetId created.ID).Get "application_id" = d.Get "application_id" := rfl
  have hidq : (d.SetId created.ID).id = created.ID := rfl
  refine ⟨?_, ?_, ?_, ?_⟩
  · intro rc1 found st2 hrc1 hget
    have hread := Read_of_found pkg (d.SetId created.ID) client st1 rc1 found st2
      (d.Get "application_id") rfl hrc1 hget
    unfold resourceCloudflareAccessCACertificateCreate
    simp only [hrc, hcreate, hread]
    simp [ResourceData.SetId, eq_comm]
  · intro rc1 err st2 hrc1 hget hother
    unfold resourceCloudflareAccessCACertificateCreate
    simp only [hrc, hcreate]
    unfold resourceCloudflareAccessCACertificateRead
    simp only [hrc1, happ, hget, hother, hidq]
    simp [FromErr, Errorf_w, GoError.Error, ResourceData.SetId]
  · intro rc1 err st2 hrc1 hget hnotfound
    unfold resourceCloudflareAccessCACertificateCreate
    simp only [hrc, hcreate]
    unfold resourceCloudflareAccessCACertificateRead
    simp only [hrc1, happ, hget, hnotfound]
    simp [ResourceData.SetId]
  · intro err hrc1
    unfold resourceCloudflareAccessCACertificateCreate
    simp only [hrc, hcreate]
    unfold resourceCloudflareAccessCACertificateRead
    simp only [hrc1]
    simp [FromErr, ResourceData.SetId]

/-- C6, at a record of the account `acc1` with a client that creates
`abc123`: once with a lookup that reports `abc123` with `aud1` and `pk1`,
once with a lookup that fails with `boom`, once with a lookup that reports
not-found. -/
theorem Create_then_Read_witness :
    resourceCloudflareAccessCACertificateCreate fakePackage
        { id := "", account_id := "acc1", zone_id := "", application_id := "app1",
          aud := "", public_key := "" }
        (fakeAPI (.ok { ID := "abc123", Aud := "", PublicKey := "" })
          (.ok { ID := "abc123", Aud := "aud1", PublicKey := "pk1" }) none) 0
      = { diags := [],
          d := { id := "abc123", account_id := "acc1", zone_id := "", application_id := "app1",
                 aud := "aud1", public_key := "pk1" },
          st := 2,
          calls := [.Create { Level := "accounts", Identifier := "acc1" } { ApplicationID := "app1" },
                    .Get { Level := "accounts", Identifier := "acc1" } "app1"] }
    ∧ resourceCloudflareAccessCACertificateCreate fakePackage
        { id := "", account_id := "acc1", zone_id := "", application_id := "app1",
          aud := "", public_key := "" }
        (fakeAPI (.ok { ID := "abc123", Aud := "", PublicKey := "" })
          (.error (.errorString "boom")) none) 0
      = { diags := [{ Severity := .Error,
                      Summary := "error finding Access CA Certificate \"abc123\": boom",
                      Detail := "" }],
          d := { id := "abc123", account_id := "acc1", zone_id := "", application_id := "app1",
                 aud := "", public_key := "" },
          st := 2,
          calls := [.Create { Level := "accounts", Identifier := "acc1" } { ApplicationID := "app1" },
                    .Get { Level := "accounts", Identifier := "acc1" } "app1"] }
    ∧ resourceCloudflareAccessCACertificateCreate fakePackage
        { id := "", account_id := "acc1", zone_id := "", application_id := "app1",
          aud := "", public_key := "" }
        (fakeAPI (.ok { ID := "abc123", Aud := "", PublicKey := "" })
          (.error (.NotFoundError "gone")) none) 0
      = { diags := [],
          d := { id := "", account_id := "acc1", zone_id := "", application_id := "app1",
                 aud := "", public_key := "" },
          st := 2,
          calls := [.Create { Level := "accounts", Identifier := "acc1" } { ApplicationID := "app1" },
                    .Get { Level := "accounts", Identifier := "acc1" } "app1"] } :=
  ⟨((Create_then_Read fakePackage
        { id := "", account_id := "acc1", zone_id := "", application_id := "app1",
          aud := "", public_key := "" }
        (fakeAPI (.ok { ID := "abc123", Aud := "", PublicKey := "" })
          (.ok { ID := "abc123", Aud := "aud1", PublicKey := "pk1" }) none) 0
        { Level := "accounts", Identifier := "acc1" } { ID := "abc123", Aud := "", PublicKey := "" } 1
        rfl rfl).1
      { Level := "accounts", Identifier := "acc1" } { ID := "abc123", Aud := "aud1", PublicKey := "pk1" } 2
      rfl rfl).1,
   (Create_then_Read fakePackage
        { id := "", account_id := "acc1", zone_id := "", application_id := "app1",
          aud := "", public_key := "" }
        (fakeAPI (.ok { ID := "abc123", Aud := "", PublicKey := "" })
          (.error (.errorString "boom")) none) 0
        { Level := "accounts", Identifier := "acc1" } { ID := "abc123", Aud := "", PublicKey := "" } 1
        rfl rfl).2.1
      { Level := "accounts", Identifier := "acc1" } (.errorString "boom") 2 rfl rfl rfl,
   (Create_then_Read fakePackage
        { id := "", account_id := "acc1", zone_id := "", application_id := "app1",
          aud := "", public_key := "" }
        (fakeAPI (.ok { ID := "abc123", Aud := "", PublicKey := "" })
          (.error (.NotFoundError "gone")) none) 0
        { Level := "accounts", Identifier := "acc1" } { ID := "abc123", Aud := "", PublicKey := "" } 1
        rfl rfl).2.2.1
      { Level := "accounts", Identifier := "acc1" } (.NotFoundError "gone") 2 rfl rfl rfl⟩

/-- C6 as stated fails: the creation call succeeds returning `abc123`, the
chained lookup reports a certificate whose identifier is `other`, and after
Create the record's `id` is `other`; with a lookup that reports not-found,
Create succeeds and the record's `id` is empty. -/
theorem Create_id_is_the_lookup_id :
    (resourceCloudflareAccessCACertificateCreate fakePackage
        { id := "", account_id := "acc1", zone_id := "", application_id := "app1",
          aud := "", public_key := "" }
        (fakeAPI (.ok { ID := "abc123", Aud := "", PublicKey := "" })
          (.ok { ID := "other", Aud := "aud1", PublicKey := "pk1" }) none) 0).diags = []
    ∧ (resourceCloudflareAccessCACertificateCreate fakePackage
        { id := "", account_id := "acc1", zone_id := "", application_id := "app1",
          aud := "", public_key := "" }
        (fakeAPI (.ok { ID := "abc123", Aud := "", PublicKey := "" })
          (.ok { ID := "other", Aud := "aud1", PublicKey := "pk1" }) none) 0).d.id = "other"
    ∧ (resourceCloudflareAccessCACertificateCreate fakePackage
        { id := "", account_id := "acc1", zone_id := "", application_id := "app1",
          aud := "", public_key := "" }
        (fakeAPI (.ok { ID := "abc123", Aud := "", PublicKey := "" })
          (.ok { ID := "other", Aud := "aud1", PublicKey := "pk1" }) none) 0).d.id ≠ "abc123"
    ∧ (resourceCloudflareAccessCACertificateCreate fakePackage
        { id := "", account_id := "acc1", zone_id := "", application_id := "app1",
          aud := "", public_key := "" }
        (fakeAPI (.ok { ID := "abc123", Aud := "", PublicKey := "" })
          (.error (.NotFoundError "gone")) none) 0).diags = []
    ∧ (resourceCloudflareAccessCACertificateCreate fakePackage
        { id := "", account_id := "acc1", zone_id := "", application_id := "app1",
          aud := "", public_key := "" }
        (fakeAPI (.ok { ID := "abc123", Aud := "", PublicKey := "" })
          (.error (.NotFoundError "gone")) none) 0).d.id = "" := by
  refine ⟨by decide, by decide, by decide, by decide, by decide⟩

/-! ## Import: well-formed keys -/

/-- C3 (amended): for every key of the form
`scopeKind/scopeID/applicationID/externalID` with `scopeKind` one of
`account` and `zone` (and no `/` inside `scopeID` and `applicationID`), when
the scope of the populated record resolves and the lookup succeeds, Import
returns exactly one record and no error; in that record the field named
`scopeKind_id` equals `scopeID`, `application_id` equals `applicationID`, and
`id`, `aud` and `public_key` are the `ID`, `Aud` and `PublicKey` the lookup
reported, so `id` equals `externalID` when the lookup reports that identifier. -/
theorem Import_well_formed_key {σ : Type} (pkg : Package) (d : ResourceData)
    (client : API σ) (st : σ) (scopeKind scopeID applicationID externalID : String)
    (rc : ResourceContainer) (found : AccessCACertificate) (st1 : σ)
    (hkind : scopeKind = "account" ∨ scopeKind = "zone")
    (hscope : '/' ∉ scopeID.data) (happ : '/' ∉ applicationID.data)
    (hid : d.id = scopeKind ++ "/" ++ scopeID ++ "/" ++ applicationID ++ "/" ++ externalID)
    (hrc : pkg.initResourceContainer
      (((d.Set (scopeKind ++ "_id") scopeID).SetId externalID).Set "application_id" applicationID)
        = .ok rc)
    (hget : client.GetAccessCACertificate st rc applicationID = (.ok found, st1)) :
    ∃ r : ResourceData,
      (resourceCloudflareAccessCACertificateImport pkg d client st).records = [r]
      ∧ (resourceCloudflareAccessCACertificateImport pkg d client st).err = none
      ∧ r.Get (scopeKind ++ "_id") = scopeID
      ∧ r.Get "application_id" = applicationID
      ∧ r.id = found.ID
      ∧ r.aud = found.Aud
      ∧ r.public_key = found.PublicKey
      ∧ (found.ID = externalID → r.id = externalID) := by
  have hkindslash : '/' ∉ scopeKind.data := by
    rcases hkind with h | h <;> subst h <;> decide
  have hsplit : SplitN d.id '/' 4 = [scopeKind, scopeID, applicationID, externalID] := by
    rw [hid]
    exact SplitN_four_of_form scopeKind scopeID applicationID externalID hkindslash hscope happ
  have hvalid : ¬ (scopeKind ≠ AccountType ∧ scopeKind ≠ ZoneType) := by
    rcases hkind with h | h <;> subst h <;> decide
  rw [Import_of_split pkg d client st _ _ _ _ hsplit, if_neg hvalid]
  have hread := Read_of_found pkg
    (((d.Set (scopeKind ++ "_id") scopeID).SetId externalID).Set "application_id" applicationID)
    client st rc found st1 applicationID rfl hrc hget
  simp only [hread]
  rcases hkind with h | h <;> subst h <;>
    simp [ResourceData.Set, ResourceData.SetId, ResourceData.Get]

/-- C3, at the key `account/acc1/app1/cert1` with a client whose lookup
reports the certificate `cert1`. -/
theorem Import_well_formed_key_witness :
    ∃ r : ResourceData,
      (resourceCloudflareAccessCACertificateImport fakePackage
        (emptyRecord.SetId "account/acc1/app1/cert1")
        (fakeAPI (.error (.errorString "unused"))
          (.ok { ID := "cert1", Aud := "aud1", PublicKey := "pk1" }) none) 0).records = [r]
      ∧ (resourceCloudflareAccessCACertificateImport fakePackage
        (emptyRecord.SetId "account/acc1/app1/cert1")
        (fakeAPI (.error (.errorString "unused"))
          (.ok { ID := "cert1", Aud := "aud1", PublicKey := "pk1" }) none) 0).err = none
      ∧ r.Get ("account" ++ "_id") = "acc1"
      ∧ r.Get "application_id" = "app1"
      ∧ r.id = "cert1"
      ∧ r.aud = "aud1"
      ∧ r.public_key = "pk1"
      ∧ ("cert1" = "cert1" → r.id = "cert1") :=
  Import_well_formed_key fakePackage (emptyRecord.SetId "account/acc1/app1/cert1")
    (fakeAPI (.error (.errorString "unused"))
      (.ok { ID := "cert1", Aud := "aud1", PublicKey := "pk1" }) none) 0
    "account" "acc1" "app1" "cert1"
    { Level := "accounts", Identifier := "acc1" } { ID := "cert1", Aud := "aud1", PublicKey := "pk1" } 1
    (Or.inl rfl) (by decide) (by decide) (by decide) rfl rfl

/-- C3 as stated fails: for the key `account/acc1/app1/cert1` and a client
whose lookup succeeds reporting a certificate with the identifier `other`,
the one record Import returns has `id` equal to `other`, not `cert1`. -/
theorem Import_id_is_the_lookup_id :
    (resourceCloudflareAccessCACertificateImport fakePackage
        (emptyRecord.SetId "account/acc1/app1/cert1")
        (fakeAPI (.error (.errorString "unused"))
          (.ok { ID := "other", Aud := "aud1", PublicKey := "pk1" }) none) 0).err = none
    ∧ (resourceCloudflareAccessCACertificateImport fakePackage
        (emptyRecord.SetId "account/acc1/app1/cert1")
        (fakeAPI (.error (.errorString "unused"))
          (.ok { ID := "other", Aud := "aud1", PublicKey := "pk1" }) none) 0).records
      = [{ id := "other", account_id := "acc1", zone_id := "", application_id := "app1",
           aud := "aud1", public_key := "pk1" }]
    ∧ ¬ ∃ r : ResourceData,
        (resourceCloudflareAccessCACertificateImport fakePackage
          (emptyRecord.SetId "account/acc1/app1/cert1")
          (fakeAPI (.error (.errorString "unused"))
            (.ok { ID := "other", Aud := "aud1", PublicKey := "pk1" }) none) 0).records = [r]
        ∧ r.id = "cert1" := by
  refine ⟨by decide, by decide, ?_⟩
  rintro ⟨r, hr, hid⟩
  have h : (resourceCloudflareAccessCACertificateImport fakePackage
      (emptyRecord.SetId "account/acc1/app1/cert1")
      (fakeAPI (.error (.errorString "unused"))
        (.ok { ID := "other", Aud := "aud1", PublicKey := "pk1" }) none) 0).records
      = [{ id := "other", account_id := "acc1", zone_id := "", application_id := "app1",
           aud := "aud1", public_key := "pk1" }] := by decide
  rw [h] at hr
  injection hr with h1 _
  rw [← h1] at hid
  exact absurd hid (by decide)

/-- C10: for every import key that splits into four segments with the first
one `account` or `zone`, when the chained Read returns diagnostics Import
returns no record and the error `failed to read Access CA Certificate state`:
a plain error value that wraps nothing and is the same whatever the
diagnostics of Read say. -/
theorem Import_read_failure {σ : Type} (pkg : Package) (d : ResourceData)
    (client : API σ) (st : σ) (scopeKind scopeID applicationID externalID : String)
    (hsplit : SplitN d.id '/' 4 = [scopeKind, scopeID, applicationID, externalID])
    (hkind : scopeKind = "account" ∨ scopeKind = "zone")
    (hread : (resourceCloudflareAccessCACertificateRead pkg
      (((d.Set (scopeKind ++ "_id") scopeID).SetId externalID).Set "application_id" applicationID)
      client st).diags ≠ []) :
    (resourceCloudflareAccessCACertificateImport pkg d client st).records = []
    ∧ (resourceCloudflareAccessCACertificateImport pkg d client st).err
        = some (.errorString "failed to read Access CA Certificate state")
    ∧ GoError.Unwrap (.errorString "failed to read Access CA Certificate state") = none := by
  have hvalid : ¬ (scopeKind ≠ AccountType ∧ scopeKind ≠ ZoneType) := by
    rcases hkind with h | h <;> subst h <;> decide
  rw [Import_of_split pkg d client st _ _ _ _ hsplit, if_neg hvalid]
  dsimp only
  rw [if_pos hread]
  exact ⟨rfl, rfl, rfl⟩

/-- C10, at the key `zone/zone1/app1/cert1`: once with a lookup that fails
with `timeout`, once with a lookup that fails with `forbidden`; the error of
Import is the same. -/
theorem Import_read_failure_witness :
    (resourceCloudflareAccessCACertificateImport fakePackage
        (emptyRecord.SetId "zone/zone1/app1/cert1")
        (fakeAPI (.error (.errorString "unused")) (.error (.errorString "timeout")) none) 0).err
      = some (.errorString "failed to read Access CA Certificate state")
    ∧ (resourceCloudflareAccessCACertificateImport fakePackage
        (emptyRecord.SetId "zone/zone1/app1/cert1")
        (fakeAPI (.error (.errorString "unused")) (.error (.errorString "forbidden")) none) 0).err
      = some (.errorString "failed to read Access CA Certificate state")
    ∧ (resourceCloudflareAccessCACertificateImport fakePackage
        (emptyRecord.SetId "zone/zone1/app1/cert1")
        (fakeAPI (.error (.errorString "unused")) (.error (.errorString "timeout")) none) 0).records
      = [] :=
  ⟨(Import_read_failure fakePackage (emptyRecord.SetId "zone/zone1/app1/cert1")
      (fakeAPI (.error (.errorString "unused")) (.error (.errorString "timeout")) none) 0
      "zone" "zone1" "app1" "cert1" (by decide) (Or.inr rfl) (by decide)).2.1,
   (Import_read_failure fakePackage (emptyRecord.SetId "zone/zone1/app1/cert1")
      (fakeAPI (.error (.errorString "unused")) (.error (.errorString "forbidden")) none) 0
      "zone" "zone1" "app1" "cert1" (by decide) (Or.inr rfl) (by decide)).2.1,
   (Import_read_failure fakePackage (emptyRecord.SetId "zone/zone1/app1/cert1")
      (fakeAPI (.error (.errorString "unused")) (.error (.errorString "timeout")) none) 0
      "zone" "zone1" "app1" "cert1" (by decide) (Or.inr rfl) (by decide)).1⟩

end sdkv2provider
